import Mathlib

/-!
Shallow embedding of `src/models.py` (granular FAQ impact-analysis data model).

Modelling conventions:
- Python `float` score fields are modelled as `ℚ` (the claims only involve
  order comparisons and equality on finite values).
- Python `datetime` values are opaque to every validation rule; they are
  modelled as `Nat` timestamps.
- Python `int` fields are modelled as `Int`, `str` as `String`,
  `Optional[T]` as `Option T`.
- A dataclass `__post_init__` that may `raise ValueError` is modelled as a
  function `post_init : T → Except String T` returning either the validated
  record unchanged or the error message; a record `r` is *constructible*
  exactly when `post_init r = Except.ok r`.
- `to_dict` returns a flat association list from field name to a primitive
  database value (`DBValue`), mirroring the Python dictionaries.
-/

/-- Primitive values appearing in the flat `to_dict` projections: strings,
integers, fractional scores, booleans, timestamps, and Python `None`. -/
inductive DBValue where
  | vStr : String → DBValue
  | vInt : Int → DBValue
  | vRat : ℚ → DBValue
  | vBool : Bool → DBValue
  | vTime : Nat → DBValue
  | vNone : DBValue
deriving DecidableEq

/-- Enum `ContentStatus` from models.py. -/
inductive ContentStatus where
  | ACTIVE
  | ARCHIVED
  | DELETED
deriving DecidableEq

/-- The `.value` string tag of each `ContentStatus` member. -/
def ContentStatus.value : ContentStatus → String
  | .ACTIVE => "active"
  | .ARCHIVED => "archived"
  | .DELETED => "deleted"

/-- Inverse of `ContentStatus.value`, used when reading a projection back. -/
def ContentStatus.fromValue : String → Option ContentStatus
  | "active" => some .ACTIVE
  | "archived" => some .ARCHIVED
  | "deleted" => some .DELETED
  | _ => none

/-- Enum `FAQStatus` from models.py. -/
inductive FAQStatus where
  | ACTIVE
  | INVALIDATED
  | ARCHIVED
  | DELETED
deriving DecidableEq

/-- The `.value` string tag of each `FAQStatus` member. -/
def FAQStatus.value : FAQStatus → String
  | .ACTIVE => "active"
  | .INVALIDATED => "invalidated"
  | .ARCHIVED => "archived"
  | .DELETED => "deleted"

/-- Inverse of `FAQStatus.value`. -/
def FAQStatus.fromValue : String → Option FAQStatus
  | "active" => some .ACTIVE
  | "invalidated" => some .INVALIDATED
  | "archived" => some .ARCHIVED
  | "deleted" => some .DELETED
  | _ => none

/-- Enum `SourceType` from models.py. -/
inductive SourceType where
  | FROM_DOCUMENTS
  | FROM_USER_QUERIES
  | FROM_MANUAL
  | FROM_VALIDATION
deriving DecidableEq

/-- The `.value` string tag of each `SourceType` member. -/
def SourceType.value : SourceType → String
  | .FROM_DOCUMENTS => "from_documents"
  | .FROM_USER_QUERIES => "from_user_queries"
  | .FROM_MANUAL => "from_manual"
  | .FROM_VALIDATION => "from_validation"

/-- Inverse of `SourceType.value`. -/
def SourceType.fromValue : String → Option SourceType
  | "from_documents" => some .FROM_DOCUMENTS
  | "from_user_queries" => some .FROM_USER_QUERIES
  | "from_manual" => some .FROM_MANUAL
  | "from_validation" => some .FROM_VALIDATION
  | _ => none

/-- Enum `GenerationMethod` from models.py. -/
inductive GenerationMethod where
  | LLM_GENERATED
  | HUMAN_WRITTEN
  | EXTRACTED
deriving DecidableEq

/-- The `.value` string tag of each `GenerationMethod` member. -/
def GenerationMethod.value : GenerationMethod → String
  | .LLM_GENERATED => "llm_generated"
  | .HUMAN_WRITTEN => "human_written"
  | .EXTRACTED => "extracted"

/-- Inverse of `GenerationMethod.value`. -/
def GenerationMethod.fromValue : String → Option GenerationMethod
  | "llm_generated" => some .LLM_GENERATED
  | "human_written" => some .HUMAN_WRITTEN
  | "extracted" => some .EXTRACTED
  | _ => none

/-- Enum `ChangeType` from models.py. -/
inductive ChangeType where
  | NEW_CONTENT
  | MODIFIED_CONTENT
  | UNCHANGED_CONTENT
  | DELETED_CONTENT
  | LOCATION_CHANGE
deriving DecidableEq

/-- The `.value` string tag of each `ChangeType` member. -/
def ChangeType.value : ChangeType → String
  | .NEW_CONTENT => "new_content"
  | .MODIFIED_CONTENT => "modified_content"
  | .UNCHANGED_CONTENT => "unchanged_content"
  | .DELETED_CONTENT => "deleted_content"
  | .LOCATION_CHANGE => "location_change"

/-- Inverse of `ChangeType.value`. -/
def ChangeType.fromValue : String → Option ChangeType
  | "new_content" => some .NEW_CONTENT
  | "modified_content" => some .MODIFIED_CONTENT
  | "unchanged_content" => some .UNCHANGED_CONTENT
  | "deleted_content" => some .DELETED_CONTENT
  | "location_change" => some .LOCATION_CHANGE
  | _ => none

/-- Enum `InvalidationReason` from models.py. -/
inductive InvalidationReason where
  | CONTENT_CHANGED
  | CONTENT_DELETED
  | QUALITY_ISSUE
  | MANUAL
  | SELECTIVE_IMPACT
deriving DecidableEq

/-- The `.value` string tag of each `InvalidationReason` member. -/
def InvalidationReason.value : InvalidationReason → String
  | .CONTENT_CHANGED => "content_changed"
  | .CONTENT_DELETED => "content_deleted"
  | .QUALITY_ISSUE => "quality_issue"
  | .MANUAL => "manual"
  | .SELECTIVE_IMPACT => "selective_impact"

/-- Inverse of `InvalidationReason.value`. -/
def InvalidationReason.fromValue : String → Option InvalidationReason
  | "content_changed" => some .CONTENT_CHANGED
  | "content_deleted" => some .CONTENT_DELETED
  | "quality_issue" => some .QUALITY_ISSUE
  | "manual" => some .MANUAL
  | "selective_impact" => some .SELECTIVE_IMPACT
  | _ => none

/-- Enum `DiffType` from models.py. -/
inductive DiffType where
  | UNIFIED
  | WORD_DIFF
  | SEMANTIC_CHUNKS
deriving DecidableEq

/-- The `.value` string tag of each `DiffType` member. -/
def DiffType.value : DiffType → String
  | .UNIFIED => "unified"
  | .WORD_DIFF => "word_diff"
  | .SEMANTIC_CHUNKS => "semantic_chunks"

/-- Inverse of `DiffType.value`. -/
def DiffType.fromValue : String → Option DiffType
  | "unified" => some .UNIFIED
  | "word_diff" => some .WORD_DIFF
  | "semantic_chunks" => some .SEMANTIC_CHUNKS
  | _ => none

/-- Enum `DiffAlgorithm` from models.py. -/
inductive DiffAlgorithm where
  | MYERS
  | PATIENCE
  | HISTOGRAM
deriving DecidableEq

/-- The `.value` string tag of each `DiffAlgorithm` member. -/
def DiffAlgorithm.value : DiffAlgorithm → String
  | .MYERS => "myers"
  | .PATIENCE => "patience"
  | .HISTOGRAM => "histogram"

/-- Inverse of `DiffAlgorithm.value`. -/
def DiffAlgorithm.fromValue : String → Option DiffAlgorithm
  | "myers" => some .MYERS
  | "patience" => some .PATIENCE
  | "histogram" => some .HISTOGRAM
  | _ => none

/-- Enum `ImpactLevel` from models.py. -/
inductive ImpactLevel where
  | HIGH
  | MEDIUM
  | LOW
  | NONE
deriving DecidableEq

/-- The `.value` string tag of each `ImpactLevel` member. -/
def ImpactLevel.value : ImpactLevel → String
  | .HIGH => "high"
  | .MEDIUM => "medium"
  | .LOW => "low"
  | .NONE => "none"

/-- Inverse of `ImpactLevel.value`. -/
def ImpactLevel.fromValue : String → Option ImpactLevel
  | "high" => some .HIGH
  | "medium" => some .MEDIUM
  | "low" => some .LOW
  | "none" => some .NONE
  | _ => none

/-- Numeric position of an impact level in the severity ordering
NONE < LOW < MEDIUM < HIGH used by the monotonicity property. -/
def ImpactLevel.rank : ImpactLevel → Nat
  | .NONE => 0
  | .LOW => 1
  | .MEDIUM => 2
  | .HIGH => 3

/-- Enum `AnalysisMethod` from models.py. -/
inductive AnalysisMethod where
  | RULE_BASED
  | ML_MODEL
  | HYBRID
deriving DecidableEq

/-- The `.value` string tag of each `AnalysisMethod` member. -/
def AnalysisMethod.value : AnalysisMethod → String
  | .RULE_BASED => "rule_based"
  | .ML_MODEL => "ml_model"
  | .HYBRID => "hybrid"

/-- Inverse of `AnalysisMethod.value`. -/
def AnalysisMethod.fromValue : String → Option AnalysisMethod
  | "rule_based" => some .RULE_BASED
  | "ml_model" => some .ML_MODEL
  | "hybrid" => some .HYBRID
  | _ => none

/-- Enum `AuditAction` from models.py. -/
inductive AuditAction where
  | INSERT
  | UPDATE
  | DELETE
  | INVALIDATE
  | RESTORE
  | SELECTIVE_INVALIDATE
deriving DecidableEq

/-- The `.value` string tag of each `AuditAction` member. -/
def AuditAction.value : AuditAction → String
  | .INSERT => "INSERT"
  | .UPDATE => "UPDATE"
  | .DELETE => "DELETE"
  | .INVALIDATE => "INVALIDATE"
  | .RESTORE => "RESTORE"
  | .SELECTIVE_INVALIDATE => "SELECTIVE_INVALIDATE"

/-- Inverse of `AuditAction.value`. -/
def AuditAction.fromValue : String → Option AuditAction
  | "INSERT" => some .INSERT
  | "UPDATE" => some .UPDATE
  | "DELETE" => some .DELETE
  | "INVALIDATE" => some .INVALIDATE
  | "RESTORE" => some .RESTORE
  | "SELECTIVE_INVALIDATE" => some .SELECTIVE_INVALIDATE
  | _ => none

/-- Enum `AnswerFormat` from models.py. -/
inductive AnswerFormat where
  | HTML
  | MARKDOWN
  | PLAIN
deriving DecidableEq

/-- The `.value` string tag of each `AnswerFormat` member. -/
def AnswerFormat.value : AnswerFormat → String
  | .HTML => "html"
  | .MARKDOWN => "markdown"
  | .PLAIN => "plain"

/-- Inverse of `AnswerFormat.value`. -/
def AnswerFormat.fromValue : String → Option AnswerFormat
  | "html" => some .HTML
  | "markdown" => some .MARKDOWN
  | "plain" => some .PLAIN
  | _ => none

/-- Encode an optional string the way `to_dict` does (`None` stays `None`). -/
def dbOptStr : Option String → DBValue
  | some s => .vStr s
  | none => .vNone

/-- Encode an optional integer for a projection. -/
def dbOptInt : Option Int → DBValue
  | some n => .vInt n
  | none => .vNone

/-- Encode an optional fractional score for a projection. -/
def dbOptRat : Option ℚ → DBValue
  | some q => .vRat q
  | none => .vNone

/-- Encode an optional boolean flag for a projection. -/
def dbOptBool : Option Bool → DBValue
  | some b => .vBool b
  | none => .vNone

/-- Encode an optional timestamp for a projection. -/
def dbOptTime : Option Nat → DBValue
  | some t => .vTime t
  | none => .vNone

/-- Encode an optional enum member as its string tag, mirroring the Python
idiom `x.value if x else None` used throughout `to_dict`. -/
def dbOptEnum {α : Type} (val : α → String) : Option α → DBValue
  | some e => .vStr (val e)
  | none => .vNone

/-- Read back a required string field. -/
def DBValue.asStr : DBValue → Option String
  | .vStr s => some s
  | _ => none

/-- Read back a required integer field. -/
def DBValue.asInt : DBValue → Option Int
  | .vInt n => some n
  | _ => none

/-- Read back a required fractional field. -/
def DBValue.asRat : DBValue → Option ℚ
  | .vRat q => some q
  | _ => none

/-- Read back a required boolean field. -/
def DBValue.asBool : DBValue → Option Bool
  | .vBool b => some b
  | _ => none

/-- Read back a required timestamp field. -/
def DBValue.asTime : DBValue → Option Nat
  | .vTime t => some t
  | _ => none

/-- Read back an optional string field. -/
def unOptStr : DBValue → Option (Option String)
  | .vStr s => some (some s)
  | .vNone => some none
  | _ => none

/-- Read back an optional integer field. -/
def unOptInt : DBValue → Option (Option Int)
  | .vInt n => some (some n)
  | .vNone => some none
  | _ => none

/-- Read back an optional fractional field. -/
def unOptRat : DBValue → Option (Option ℚ)
  | .vRat q => some (some q)
  | .vNone => some none
  | _ => none

/-- Read back an optional boolean field. -/
def unOptBool : DBValue → Option (Option Bool)
  | .vBool b => some (some b)
  | .vNone => some none
  | _ => none

/-- Read back an optional timestamp field. -/
def unOptTime : DBValue → Option (Option Nat)
  | .vTime t => some (some t)
  | .vNone => some none
  | _ => none

/-- Read back an optional enum field from its string tag. -/
def unOptEnum {α : Type} (fromVal : String → Option α) : DBValue → Option (Option α)
  | .vStr s => (fromVal s).map some
  | .vNone => some none
  | _ => none

/-- Look up a required string field of a projection. -/
def getStr (d : List (String × DBValue)) (k : String) : Option String :=
  (d.lookup k).bind DBValue.asStr

/-- Look up a required integer field of a projection. -/
def getInt (d : List (String × DBValue)) (k : String) : Option Int :=
  (d.lookup k).bind DBValue.asInt

/-- Look up a required fractional field of a projection. -/
def getRat (d : List (String × DBValue)) (k : String) : Option ℚ :=
  (d.lookup k).bind DBValue.asRat

/-- Look up a required boolean field of a projection. -/
def getBool (d : List (String × DBValue)) (k : String) : Option Bool :=
  (d.lookup k).bind DBValue.asBool

/-- Look up a required timestamp field of a projection. -/
def getTime (d : List (String × DBValue)) (k : String) : Option Nat :=
  (d.lookup k).bind DBValue.asTime

/-- Look up a required enum field of a projection by its string tag. -/
def getEnum {α : Type} (fromVal : String → Option α) (d : List (String × DBValue)) (k : String) : Option α :=
  (d.lookup k).bind (fun v => v.asStr.bind fromVal)

/-- Look up an optional string field of a projection. -/
def getOptStr (d : List (String × DBValue)) (k : String) : Option (Option String) :=
  (d.lookup k).bind unOptStr

/-- Look up an optional integer field of a projection. -/
def getOptInt (d : List (String × DBValue)) (k : String) : Option (Option Int) :=
  (d.lookup k).bind unOptInt

/-- Look up an optional fractional field of a projection. -/
def getOptRat (d : List (String × DBValue)) (k : String) : Option (Option ℚ) :=
  (d.lookup k).bind unOptRat

/-- Look up an optional boolean field of a projection. -/
def getOptBool (d : List (String × DBValue)) (k : String) : Option (Option Bool) :=
  (d.lookup k).bind unOptBool

/-- Look up an optional timestamp field of a projection. -/
def getOptTime (d : List (String × DBValue)) (k : String) : Option (Option Nat) :=
  (d.lookup k).bind unOptTime

/-- Look up an optional enum field of a projection by its string tag. -/
def getOptEnum {α : Type} (fromVal : String → Option α) (d : List (String × DBValue)) (k : String) : Option (Option α) :=
  (d.lookup k).bind (unOptEnum fromVal)

/-- Dataclass `ContentChecksum`: a unique content identity (master content
table). Field order, types and defaults follow models.py; `datetime.now()`
defaults are modelled by the fixed timestamp 0. -/
structure ContentChecksum where
  content_checksum : String
  status : ContentStatus := ContentStatus.ACTIVE
  created_at : Nat := 0
  file_type : Option String := none
  content_format : Option String := none
  title : Option String := none
  word_count : Option Int := none
  char_count : Option Int := none
  domain : Option String := none
  service : Option String := none
  file_name : Option String := none
  page_number : Option Int := none
  section_name : Option String := none
  url : Option String := none
  breadcrumb : Option String := none
  source_file_path : Option String := none
  file_version : Option String := none
  markdown_file_path : Option String := none
  content_text : Option String := none
deriving DecidableEq

/-- `ContentChecksum.__post_init__`: validate checksum length. -/
def ContentChecksum.post_init (r : ContentChecksum) : Except String ContentChecksum :=
  if r.content_checksum.length ≠ 64 then
    Except.error ("content_checksum must be 64 chars, got " ++ toString r.content_checksum.length)
  else Except.ok r

/-- `ContentChecksum.to_dict`: flat projection, key order as in models.py. -/
def ContentChecksum.to_dict (r : ContentChecksum) : List (String × DBValue) :=
  [("content_checksum", DBValue.vStr r.content_checksum),
   ("file_type", dbOptStr r.file_type),
   ("content_format", dbOptStr r.content_format),
   ("title", dbOptStr r.title),
   ("word_count", dbOptInt r.word_count),
   ("char_count", dbOptInt r.char_count),
   ("domain", dbOptStr r.domain),
   ("service", dbOptStr r.service),
   ("status", DBValue.vStr r.status.value),
   ("file_name", dbOptStr r.file_name),
   ("page_number", dbOptInt r.page_number),
   ("section_name", dbOptStr r.section_name),
   ("url", dbOptStr r.url),
   ("breadcrumb", dbOptStr r.breadcrumb),
   ("source_file_path", dbOptStr r.source_file_path),
   ("file_version", dbOptStr r.file_version),
   ("markdown_file_path", dbOptStr r.markdown_file_path),
   ("content_text", dbOptStr r.content_text),
   ("created_at", DBValue.vTime r.created_at)]

/-- Modelled from the spec: models.py defines no reconstruction from the flat
projection, but the spec's round-trip property needs one; this reads each
field back by name and re-validates through `post_init`. -/
def ContentChecksum.from_dict (d : List (String × DBValue)) : Option ContentChecksum :=
  match getStr d "content_checksum", getEnum ContentStatus.fromValue d "status", getTime d "created_at", getOptStr d "file_type", getOptStr d "content_format", getOptStr d "title", getOptInt d "word_count", getOptInt d "char_count", getOptStr d "domain", getOptStr d "service", getOptStr d "file_name", getOptInt d "page_number", getOptStr d "section_name", getOptStr d "url", getOptStr d "breadcrumb", getOptStr d "source_file_path", getOptStr d "file_version", getOptStr d "markdown_file_path", getOptStr d "content_text" with
  | some content_checksum, some status, some created_at, some file_type, some content_format, some title, some word_count, some char_count, some domain, some service, some file_name, some page_number, some section_name, some url, some breadcrumb, some source_file_path, some file_version, some markdown_file_path, some content_text =>
    (ContentChecksum.post_init
      { content_checksum := content_checksum, status := status, created_at := created_at,
        file_type := file_type, content_format := content_format, title := title,
        word_count := word_count, char_count := char_count, domain := domain,
        service := service, file_name := file_name, page_number := page_number,
        section_name := section_name, url := url, breadcrumb := breadcrumb,
        source_file_path := source_file_path, file_version := file_version,
        markdown_file_path := markdown_file_path, content_text := content_text }).toOption
  | _, _, _, _, _, _, _, _, _, _, _, _, _, _, _, _, _, _, _ => none

/-- Dataclass `FAQQuestion` (content-agnostic FAQ question). -/
structure FAQQuestion where
  question_id : Option Int := none
  question_text : String := ""
  status : FAQStatus := FAQStatus.ACTIVE
  created_at : Nat := 0
  modified_at : Nat := 0
  source_type : Option SourceType := none
  generation_method : Option GenerationMethod := none
  domain : Option String := none
  service : Option String := none
  created_by : String := "system"
  modified_by : String := "system"
deriving DecidableEq

/-- `FAQQuestion.to_dict`: flat projection, key order as in models.py. -/
def FAQQuestion.to_dict (r : FAQQuestion) : List (String × DBValue) :=
  [("question_id", dbOptInt r.question_id),
   ("question_text", DBValue.vStr r.question_text),
   ("source_type", dbOptEnum SourceType.value r.source_type),
   ("generation_method", dbOptEnum GenerationMethod.value r.generation_method),
   ("domain", dbOptStr r.domain),
   ("service", dbOptStr r.service),
   ("status", DBValue.vStr r.status.value),
   ("created_at", DBValue.vTime r.created_at),
   ("modified_at", DBValue.vTime r.modified_at),
   ("created_by", DBValue.vStr r.created_by),
   ("modified_by", DBValue.vStr r.modified_by)]

/-- Modelled from the spec: reconstruction of a `FAQQuestion` from its flat
projection (absent from models.py); `FAQQuestion` has no validation. -/
def FAQQuestion.from_dict (d : List (String × DBValue)) : Option FAQQuestion :=
  match getOptInt d "question_id", getStr d "question_text", getEnum FAQStatus.fromValue d "status", getTime d "created_at", getTime d "modified_at", getOptEnum SourceType.fromValue d "source_type", getOptEnum GenerationMethod.fromValue d "generation_method", getOptStr d "domain", getOptStr d "service", getStr d "created_by", getStr d "modified_by" with
  | some question_id, some question_text, some status, some created_at, some modified_at, some source_type, some generation_method, some domain, some service, some created_by, some modified_by =>
    some { question_id := question_id, question_text := question_text, status := status,
           created_at := created_at, modified_at := modified_at, source_type := source_type,
           generation_method := generation_method, domain := domain, service := service,
           created_by := created_by, modified_by := modified_by }
  | _, _, _, _, _, _, _, _, _, _, _ => none

/-- Dataclass `FAQQuestionSource`: question provenance with temporal
validity. -/
structure FAQQuestionSource where
  question_id : Int
  content_checksum : String
  is_valid : Bool := true
  valid_from : Nat := 0
  created_at : Nat := 0
  source_id : Option Int := none
  is_primary_source : Bool := false
  contribution_weight : Option ℚ := none
  valid_until : Option Nat := none
  invalidation_reason : Option InvalidationReason := none
  invalidated_by_change_id : Option Int := none
deriving DecidableEq

/-- `FAQQuestionSource.__post_init__`: validate contribution weight. -/
def FAQQuestionSource.post_init (r : FAQQuestionSource) : Except String FAQQuestionSource :=
  match r.contribution_weight with
  | some w =>
    if ¬ (0 ≤ w ∧ w ≤ 1) then
      Except.error ("contribution_weight must be 0.0-1.0, got " ++ toString w)
    else Except.ok r
  | none => Except.ok r

/-- `FAQQuestionSource.to_dict`: flat projection, key order as in models.py. -/
def FAQQuestionSource.to_dict (r : FAQQuestionSource) : List (String × DBValue) :=
  [("source_id", dbOptInt r.source_id),
   ("question_id", DBValue.vInt r.question_id),
   ("content_checksum", DBValue.vStr r.content_checksum),
   ("is_primary_source", DBValue.vBool r.is_primary_source),
   ("contribution_weight", dbOptRat r.contribution_weight),
   ("is_valid", DBValue.vBool r.is_valid),
   ("valid_from", DBValue.vTime r.valid_from),
   ("valid_until", dbOptTime r.valid_until),
   ("invalidation_reason", dbOptEnum InvalidationReason.value r.invalidation_reason),
   ("invalidated_by_change_id", dbOptInt r.invalidated_by_change_id),
   ("created_at", DBValue.vTime r.created_at)]

/-- Modelled from the spec: reconstruction of a `FAQQuestionSource` from its
flat projection (absent from models.py), re-validated through `post_init`. -/
def FAQQuestionSource.from_dict (d : List (String × DBValue)) : Option FAQQuestionSource :=
  match getInt d "question_id", getStr d "content_checksum", getBool d "is_valid", getTime d "valid_from", getTime d "created_at", getOptInt d "source_id", getBool d "is_primary_source", getOptRat d "contribution_weight", getOptTime d "valid_until", getOptEnum InvalidationReason.fromValue d "invalidation_reason", getOptInt d "invalidated_by_change_id" with
  | some question_id, some content_checksum, some is_valid, some valid_from, some created_at, some source_id, some is_primary_source, some contribution_weight, some valid_until, some invalidation_reason, some invalidated_by_change_id =>
    (FAQQuestionSource.post_init
      { question_id := question_id, content_checksum := content_checksum,
        is_valid := is_valid, valid_from := valid_from, created_at := created_at,
        source_id := source_id, is_primary_source := is_primary_source,
        contribution_weight := contribution_weight, valid_until := valid_until,
        invalidation_reason := invalidation_reason,
        invalidated_by_change_id := invalidated_by_change_id }).toOption
  | _, _, _, _, _, _, _, _, _, _, _ => none

/-- Dataclass `FAQAnswer` (linked to question 1:1). -/
structure FAQAnswer where
  question_id : Int
  answer_text : String
  status : FAQStatus := FAQStatus.ACTIVE
  created_at : Nat := 0
  modified_at : Nat := 0
  answer_id : Option Int := none
  answer_format : AnswerFormat := AnswerFormat.HTML
  confidence_score : Option ℚ := none
  created_by : String := "system"
  modified_by : String := "system"
deriving DecidableEq

/-- `FAQAnswer.__post_init__`: validate confidence score. -/
def FAQAnswer.post_init (r : FAQAnswer) : Except String FAQAnswer :=
  match r.confidence_score with
  | some c =>
    if ¬ (0 ≤ c ∧ c ≤ 1) then
      Except.error ("confidence_score must be 0.0-1.0, got " ++ toString c)
    else Except.ok r
  | none => Except.ok r

/-- `FAQAnswer.to_dict`: flat projection, key order as in models.py. -/
def FAQAnswer.to_dict (r : FAQAnswer) : List (String × DBValue) :=
  [("answer_id", dbOptInt r.answer_id),
   ("question_id", DBValue.vInt r.question_id),
   ("answer_text", DBValue.vStr r.answer_text),
   ("answer_format", DBValue.vStr r.answer_format.value),
   ("confidence_score", dbOptRat r.confidence_score),
   ("status", DBValue.vStr r.status.value),
   ("created_at", DBValue.vTime r.created_at),
   ("modified_at", DBValue.vTime r.modified_at),
   ("created_by", DBValue.vStr r.created_by),
   ("modified_by", DBValue.vStr r.modified_by)]

/-- Modelled from the spec: reconstruction of a `FAQAnswer` from its flat
projection (absent from models.py), re-validated through `post_init`. -/
def FAQAnswer.from_dict (d : List (String × DBValue)) : Option FAQAnswer :=
  match getInt d "question_id", getStr d "answer_text", getEnum FAQStatus.fromValue d "status", getTime d "created_at", getTime d "modified_at", getOptInt d "answer_id", getEnum AnswerFormat.fromValue d "answer_format", getOptRat d "confidence_score", getStr d "created_by", getStr d "modified_by" with
  | some question_id, some answer_text, some status, some created_at, some modified_at, some answer_id, some answer_format, some confidence_score, some created_by, some modified_by =>
    (FAQAnswer.post_init
      { question_id := question_id, answer_text := answer_text, status := status,
        created_at := created_at, modified_at := modified_at, answer_id := answer_id,
        answer_format := answer_format, confidence_score := confidence_score,
        created_by := created_by, modified_by := modified_by }).toOption
  | _, _, _, _, _, _, _, _, _, _ => none

/-- Dataclass `FAQAnswerSource`: answer provenance with temporal validity. -/
structure FAQAnswerSource where
  answer_id : Int
  content_checksum : String
  is_valid : Bool := true
  valid_from : Nat := 0
  created_at : Nat := 0
  source_id : Option Int := none
  is_primary_source : Bool := false
  contribution_weight : Option ℚ := none
  context_employed : Option String := none
  valid_until : Option Nat := none
  invalidation_reason : Option InvalidationReason := none
  invalidated_by_change_id : Option Int := none
deriving DecidableEq

/-- `FAQAnswerSource.__post_init__`: validate contribution weight. -/
def FAQAnswerSource.post_init (r : FAQAnswerSource) : Except String FAQAnswerSource :=
  match r.contribution_weight with
  | some w =>
    if ¬ (0 ≤ w ∧ w ≤ 1) then
      Except.error ("contribution_weight must be 0.0-1.0, got " ++ toString w)
    else Except.ok r
  | none => Except.ok r

/-- `FAQAnswerSource.to_dict`: flat projection, key order as in models.py. -/
def FAQAnswerSource.to_dict (r : FAQAnswerSource) : List (String × DBValue) :=
  [("source_id", dbOptInt r.source_id),
   ("answer_id", DBValue.vInt r.answer_id),
   ("content_checksum", DBValue.vStr r.content_checksum),
   ("is_primary_source", DBValue.vBool r.is_primary_source),
   ("contribution_weight", dbOptRat r.contribution_weight),
   ("context_employed", dbOptStr r.context_employed),
   ("is_valid", DBValue.vBool r.is_valid),
   ("valid_from", DBValue.vTime r.valid_from),
   ("valid_until", dbOptTime r.valid_until),
   ("invalidation_reason", dbOptEnum InvalidationReason.value r.invalidation_reason),
   ("invalidated_by_change_id", dbOptInt r.invalidated_by_change_id),
   ("created_at", DBValue.vTime r.created_at)]

/-- Modelled from the spec: reconstruction of a `FAQAnswerSource` from its
flat projection (absent from models.py), re-validated through `post_init`. -/
def FAQAnswerSource.from_dict (d : List (String × DBValue)) : Option FAQAnswerSource :=
  match getInt d "answer_id", getStr d "content_checksum", getBool d "is_valid", getTime d "valid_from", getTime d "created_at", getOptInt d "source_id", getBool d "is_primary_source", getOptRat d "contribution_weight", getOptStr d "context_employed", getOptTime d "valid_until", getOptEnum InvalidationReason.fromValue d "invalidation_reason", getOptInt d "invalidated_by_change_id" with
  | some answer_id, some content_checksum, some is_valid, some valid_from, some created_at, some source_id, some is_primary_source, some contribution_weight, some context_employed, some valid_until, some invalidation_reason, some invalidated_by_change_id =>
    (FAQAnswerSource.post_init
      { answer_id := answer_id, content_checksum := content_checksum,
        is_valid := is_valid, valid_from := valid_from, created_at := created_at,
        source_id := source_id, is_primary_source := is_primary_source,
        contribution_weight := contribution_weight, context_employed := context_employed,
        valid_until := valid_until, invalidation_reason := invalidation_reason,
        invalidated_by_change_id := invalidated_by_change_id }).toOption
  | _, _, _, _, _, _, _, _, _, _, _, _ => none

/-- Dataclass `ContentChangeLog`: content change detection log. -/
structure ContentChangeLog where
  content_checksum : String
  file_name : String
  requires_faq_regeneration : Bool
  detection_run_id : String
  detection_timestamp : Nat := 0
  total_faqs_at_risk : Int := 0
  affected_question_count : Int := 0
  affected_answer_count : Int := 0
  change_id : Option Int := none
  previous_checksum : Option String := none
  page_number : Option Int := none
  section_name : Option String := none
  change_type : Option ChangeType := none
  similarity_score : Option ℚ := none
  similarity_method : Option String := none
  detection_period_start : Option Nat := none
  source_modified_at : Option Nat := none
  domain : Option String := none
  service : Option String := none
deriving DecidableEq

/-- Third validation step of `ContentChangeLog.__post_init__`: the
similarity-score range check. -/
def ContentChangeLog.sim_check (r : ContentChangeLog) : Except String ContentChangeLog :=
  match r.similarity_score with
  | some s =>
    if ¬ (0 ≤ s ∧ s ≤ 1) then
      Except.error ("similarity_score must be 0.0-1.0, got " ++ toString s)
    else Except.ok r
  | none => Except.ok r

/-- `ContentChangeLog.__post_init__`: validate checksums and similarity
score. The guard on `previous_checksum` mirrors the Python truthiness test
`if self.previous_checksum and len(self.previous_checksum) != 64`, under
which both `None` and the empty string skip the length check. -/
def ContentChangeLog.post_init (r : ContentChangeLog) : Except String ContentChangeLog :=
  if r.content_checksum.length ≠ 64 then
    Except.error ("content_checksum must be 64 chars, got " ++ toString r.content_checksum.length)
  else match r.previous_checksum with
    | some p =>
      if p ≠ "" ∧ p.length ≠ 64 then
        Except.error ("previous_checksum must be 64 chars, got " ++ toString p.length)
      else ContentChangeLog.sim_check r
    | none => ContentChangeLog.sim_check r

/-- `ContentChangeLog.to_dict`: flat projection, key order as in models.py. -/
def ContentChangeLog.to_dict (r : ContentChangeLog) : List (String × DBValue) :=
  [("change_id", dbOptInt r.change_id),
   ("content_checksum", DBValue.vStr r.content_checksum),
   ("previous_checksum", dbOptStr r.previous_checksum),
   ("file_name", DBValue.vStr r.file_name),
   ("page_number", dbOptInt r.page_number),
   ("section_name", dbOptStr r.section_name),
   ("requires_faq_regeneration", DBValue.vBool r.requires_faq_regeneration),
   ("change_type", dbOptEnum ChangeType.value r.change_type),
   ("similarity_score", dbOptRat r.similarity_score),
   ("similarity_method", dbOptStr r.similarity_method),
   ("total_faqs_at_risk", DBValue.vInt r.total_faqs_at_risk),
   ("affected_question_count", DBValue.vInt r.affected_question_count),
   ("affected_answer_count", DBValue.vInt r.affected_answer_count),
   ("detection_run_id", DBValue.vStr r.detection_run_id),
   ("detection_timestamp", DBValue.vTime r.detection_timestamp),
   ("detection_period_start", dbOptTime r.detection_period_start),
   ("source_modified_at", dbOptTime r.source_modified_at),
   ("domain", dbOptStr r.domain),
   ("service", dbOptStr r.service)]

/-- Modelled from the spec: reconstruction of a `ContentChangeLog` from its
flat projection (absent from models.py), re-validated through `post_init`. -/
def ContentChangeLog.from_dict (d : List (String × DBValue)) : Option ContentChangeLog :=
  match getStr d "content_checksum", getStr d "file_name", getBool d "requires_faq_regeneration", getStr d "detection_run_id", getTime d "detection_timestamp", getInt d "total_faqs_at_risk", getInt d "affected_question_count", getInt d "affected_answer_count", getOptInt d "change_id", getOptStr d "previous_checksum", getOptInt d "page_number", getOptStr d "section_name", getOptEnum ChangeType.fromValue d "change_type", getOptRat d "similarity_score", getOptStr d "similarity_method", getOptTime d "detection_period_start", getOptTime d "source_modified_at", getOptStr d "domain", getOptStr d "service" with
  | some content_checksum, some file_name, some requires_faq_regeneration, some detection_run_id, some detection_timestamp, some total_faqs_at_risk, some affected_question_count, some affected_answer_count, some change_id, some previous_checksum, some page_number, some section_name, some change_type, some similarity_score, some similarity_method, some detection_period_start, some source_modified_at, some domain, some service =>
    (ContentChangeLog.post_init
      { content_checksum := content_checksum, file_name := file_name,
        requires_faq_regeneration := requires_faq_regeneration,
        detection_run_id := detection_run_id, detection_timestamp := detection_timestamp,
        total_faqs_at_risk := total_faqs_at_risk,
        affected_question_count := affected_question_count,
        affected_answer_count := affected_answer_count, change_id := change_id,
        previous_checksum := previous_checksum, page_number := page_number,
        section_name := section_name, change_type := change_type,
        similarity_score := similarity_score, similarity_method := similarity_method,
        detection_period_start := detection_period_start,
        source_modified_at := source_modified_at, domain := domain,
        service := service }).toOption
  | _, _, _, _, _, _, _, _, _, _, _, _, _, _, _, _, _, _, _ => none

/-- Dataclass `ContentDiff`: granular content diff between two versions. -/
structure ContentDiff where
  change_id : Int
  old_checksum : String
  new_checksum : String
  computed_at : Nat := 0
  diff_id : Option Int := none
  diff_type : Option DiffType := none
  diff_algorithm : Option DiffAlgorithm := none
  additions_count : Option Int := none
  deletions_count : Option Int := none
  modifications_count : Option Int := none
  total_changes : Option Int := none
  change_percentage : Option ℚ := none
  diff_data : Option String := none
  contains_numeric_changes : Option Bool := none
  contains_date_changes : Option Bool := none
  contains_policy_changes : Option Bool := none
  contains_eligibility_changes : Option Bool := none
  changed_phrases : Option String := none
deriving DecidableEq

/-- `ContentDiff.__post_init__`: validate change percentage. -/
def ContentDiff.post_init (r : ContentDiff) : Except String ContentDiff :=
  match r.change_percentage with
  | some p =>
    if ¬ (0 ≤ p ∧ p ≤ 100) then
      Except.error ("change_percentage must be 0.0-100.0, got " ++ toString p)
    else Except.ok r
  | none => Except.ok r

/-- `ContentDiff.to_dict`: flat projection, key order as in models.py. -/
def ContentDiff.to_dict (r : ContentDiff) : List (String × DBValue) :=
  [("diff_id", dbOptInt r.diff_id),
   ("change_id", DBValue.vInt r.change_id),
   ("old_checksum", DBValue.vStr r.old_checksum),
   ("new_checksum", DBValue.vStr r.new_checksum),
   ("diff_type", dbOptEnum DiffType.value r.diff_type),
   ("diff_algorithm", dbOptEnum DiffAlgorithm.value r.diff_algorithm),
   ("additions_count", dbOptInt r.additions_count),
   ("deletions_count", dbOptInt r.deletions_count),
   ("modifications_count", dbOptInt r.modifications_count),
   ("total_changes", dbOptInt r.total_changes),
   ("change_percentage", dbOptRat r.change_percentage),
   ("diff_data", dbOptStr r.diff_data),
   ("contains_numeric_changes", dbOptBool r.contains_numeric_changes),
   ("contains_date_changes", dbOptBool r.contains_date_changes),
   ("contains_policy_changes", dbOptBool r.contains_policy_changes),
   ("contains_eligibility_changes", dbOptBool r.contains_eligibility_changes),
   ("changed_phrases", dbOptStr r.changed_phrases),
   ("computed_at", DBValue.vTime r.computed_at)]

/-- Modelled from the spec: reconstruction of a `ContentDiff` from its flat
projection (absent from models.py), re-validated through `post_init`. -/
def ContentDiff.from_dict (d : List (String × DBValue)) : Option ContentDiff :=
  match getInt d "change_id", getStr d "old_checksum", getStr d "new_checksum", getTime d "computed_at", getOptInt d "diff_id", getOptEnum DiffType.fromValue d "diff_type", getOptEnum DiffAlgorithm.fromValue d "diff_algorithm", getOptInt d "additions_count", getOptInt d "deletions_count", getOptInt d "modifications_count", getOptInt d "total_changes", getOptRat d "change_percentage", getOptStr d "diff_data", getOptBool d "contains_numeric_changes", getOptBool d "contains_date_changes", getOptBool d "contains_policy_changes", getOptBool d "contains_eligibility_changes", getOptStr d "changed_phrases" with
  | some change_id, some old_checksum, some new_checksum, some computed_at, some diff_id, some diff_type, some diff_algorithm, some additions_count, some deletions_count, some modifications_count, some total_changes, some change_percentage, some diff_data, some contains_numeric_changes, some contains_date_changes, some contains_policy_changes, some contains_eligibility_changes, some changed_phrases =>
    (ContentDiff.post_init
      { change_id := change_id, old_checksum := old_checksum,
        new_checksum := new_checksum, computed_at := computed_at, diff_id := diff_id,
        diff_type := diff_type, diff_algorithm := diff_algorithm,
        additions_count := additions_count, deletions_count := deletions_count,
        modifications_count := modifications_count, total_changes := total_changes,
        change_percentage := change_percentage, diff_data := diff_data,
        contains_numeric_changes := contains_numeric_changes,
        contains_date_changes := contains_date_changes,
        contains_policy_changes := contains_policy_changes,
        contains_eligibility_changes := contains_eligibility_changes,
        changed_phrases := changed_phrases }).toOption
  | _, _, _, _, _, _, _, _, _, _, _, _, _, _, _, _, _, _ => none

/-- Dataclass `FAQImpactAnalysis`: the per-FAQ impact decision unit. -/
structure FAQImpactAnalysis where
  change_id : Int
  question_id : Int
  overall_impact_score : ℚ
  is_affected : Bool
  analyzed_at : Nat := 0
  impact_id : Option Int := none
  diff_id : Option Int := none
  answer_id : Option Int := none
  lexical_overlap_score : Option ℚ := none
  semantic_similarity_score : Option ℚ := none
  keyword_match_score : Option ℚ := none
  phrase_match_score : Option ℚ := none
  impact_level : Option ImpactLevel := none
  confidence : Option ℚ := none
  impact_reason : Option String := none
  matched_changes : Option String := none
  analysis_method : Option AnalysisMethod := none
  analysis_version : Option String := none
deriving DecidableEq

/-- `FAQImpactAnalysis.__post_init__`: validate `overall_impact_score` and,
when present, `confidence`; nothing else is checked. -/
def FAQImpactAnalysis.post_init (r : FAQImpactAnalysis) : Except String FAQImpactAnalysis :=
  if ¬ (0 ≤ r.overall_impact_score ∧ r.overall_impact_score ≤ 1) then
    Except.error ("overall_impact_score must be 0.0-1.0, got " ++ toString r.overall_impact_score)
  else match r.confidence with
    | some c =>
      if ¬ (0 ≤ c ∧ c ≤ 1) then
        Except.error ("confidence must be 0.0-1.0, got " ++ toString c)
      else Except.ok r
    | none => Except.ok r

/-- `FAQImpactAnalysis.to_dict`: flat projection, key order as in models.py. -/
def FAQImpactAnalysis.to_dict (r : FAQImpactAnalysis) : List (String × DBValue) :=
  [("impact_id", dbOptInt r.impact_id),
   ("change_id", DBValue.vInt r.change_id),
   ("diff_id", dbOptInt r.diff_id),
   ("question_id", DBValue.vInt r.question_id),
   ("answer_id", dbOptInt r.answer_id),
   ("overall_impact_score", DBValue.vRat r.overall_impact_score),
   ("lexical_overlap_score", dbOptRat r.lexical_overlap_score),
   ("semantic_similarity_score", dbOptRat r.semantic_similarity_score),
   ("keyword_match_score", dbOptRat r.keyword_match_score),
   ("phrase_match_score", dbOptRat r.phrase_match_score),
   ("is_affected", DBValue.vBool r.is_affected),
   ("impact_level", dbOptEnum ImpactLevel.value r.impact_level),
   ("confidence", dbOptRat r.confidence),
   ("impact_reason", dbOptStr r.impact_reason),
   ("matched_changes", dbOptStr r.matched_changes),
   ("analysis_method", dbOptEnum AnalysisMethod.value r.analysis_method),
   ("analysis_version", dbOptStr r.analysis_version),
   ("analyzed_at", DBValue.vTime r.analyzed_at)]

/-- Modelled from the spec: reconstruction of a `FAQImpactAnalysis` from its
flat projection (absent from models.py), re-validated through `post_init`. -/
def FAQImpactAnalysis.from_dict (d : List (String × DBValue)) : Option FAQImpactAnalysis :=
  match getInt d "change_id", getInt d "question_id", getRat d "overall_impact_score", getBool d "is_affected", getTime d "analyzed_at", getOptInt d "impact_id", getOptInt d "diff_id", getOptInt d "answer_id", getOptRat d "lexical_overlap_score", getOptRat d "semantic_similarity_score", getOptRat d "keyword_match_score", getOptRat d "phrase_match_score", getOptEnum ImpactLevel.fromValue d "impact_level", getOptRat d "confidence", getOptStr d "impact_reason", getOptStr d "matched_changes", getOptEnum AnalysisMethod.fromValue d "analysis_method", getOptStr d "analysis_version" with
  | some change_id, some question_id, some overall_impact_score, some is_affected, some analyzed_at, some impact_id, some diff_id, some answer_id, some lexical_overlap_score, some semantic_similarity_score, some keyword_match_score, some phrase_match_score, some impact_level, some confidence, some impact_reason, some matched_changes, some analysis_method, some analysis_version =>
    (FAQImpactAnalysis.post_init
      { change_id := change_id, question_id := question_id,
        overall_impact_score := overall_impact_score, is_affected := is_affected,
        analyzed_at := analyzed_at, impact_id := impact_id, diff_id := diff_id,
        answer_id := answer_id, lexical_overlap_score := lexical_overlap_score,
        semantic_similarity_score := semantic_similarity_score,
        keyword_match_score := keyword_match_score,
        phrase_match_score := phrase_match_score, impact_level := impact_level,
        confidence := confidence, impact_reason := impact_reason,
        matched_changes := matched_changes, analysis_method := analysis_method,
        analysis_version := analysis_version }).toOption
  | _, _, _, _, _, _, _, _, _, _, _, _, _, _, _, _, _, _ => none

/-- Dataclass `AuditLogEntry`: audit trail record. -/
structure AuditLogEntry where
  table_name : String
  action : AuditAction
  performed_by : String := "system"
  performed_at : Nat := 0
  audit_id : Option Int := none
  record_id : Option Int := none
  content_checksum : Option String := none
  old_values : Option String := none
  new_values : Option String := none
  detection_run_id : Option String := none
  change_reason : Option String := none
deriving DecidableEq

/-- `AuditLogEntry.to_dict`: flat projection, key order as in models.py. -/
def AuditLogEntry.to_dict (r : AuditLogEntry) : List (String × DBValue) :=
  [("audit_id", dbOptInt r.audit_id),
   ("table_name", DBValue.vStr r.table_name),
   ("record_id", dbOptInt r.record_id),
   ("content_checksum", dbOptStr r.content_checksum),
   ("action", DBValue.vStr r.action.value),
   ("old_values", dbOptStr r.old_values),
   ("new_values", dbOptStr r.new_values),
   ("detection_run_id", dbOptStr r.detection_run_id),
   ("change_reason", dbOptStr r.change_reason),
   ("performed_by", DBValue.vStr r.performed_by),
   ("performed_at", DBValue.vTime r.performed_at)]

/-- Modelled from the spec: reconstruction of an `AuditLogEntry` from its
flat projection (absent from models.py); the entry has no validation. -/
def AuditLogEntry.from_dict (d : List (String × DBValue)) : Option AuditLogEntry :=
  match getStr d "table_name", getEnum AuditAction.fromValue d "action", getStr d "performed_by", getTime d "performed_at", getOptInt d "audit_id", getOptInt d "record_id", getOptStr d "content_checksum", getOptStr d "old_values", getOptStr d "new_values", getOptStr d "detection_run_id", getOptStr d "change_reason" with
  | some table_name, some action, some performed_by, some performed_at, some audit_id, some record_id, some content_checksum, some old_values, some new_values, some detection_run_id, some change_reason =>
    some { table_name := table_name, action := action, performed_by := performed_by,
           performed_at := performed_at, audit_id := audit_id, record_id := record_id,
           content_checksum := content_checksum, old_values := old_values,
           new_values := new_values, detection_run_id := detection_run_id,
           change_reason := change_reason }
  | _, _, _, _, _, _, _, _, _, _, _ => none

/-- Dataclass `ContentChange`: transient model used during change
detection. -/
structure ContentChange where
  content_checksum : String
  old_checksum : String
  new_checksum : String
  change_type : ChangeType
  detected_at : Nat := 0
  file_name : Option String := none
  page_number : Option Int := none
  old_content : Option String := none
  new_content : Option String := none
  similarity_score : Option ℚ := none
  llm_friendly_diff : Option String := none
deriving DecidableEq

/-- `ContentChange.to_dict`: flat projection, key order as in models.py. -/
def ContentChange.to_dict (r : ContentChange) : List (String × DBValue) :=
  [("content_checksum", DBValue.vStr r.content_checksum),
   ("old_checksum", DBValue.vStr r.old_checksum),
   ("new_checksum", DBValue.vStr r.new_checksum),
   ("change_type", DBValue.vStr r.change_type.value),
   ("detected_at", DBValue.vTime r.detected_at),
   ("file_name", dbOptStr r.file_name),
   ("page_number", dbOptInt r.page_number),
   ("old_content", dbOptStr r.old_content),
   ("new_content", dbOptStr r.new_content),
   ("similarity_score", dbOptRat r.similarity_score),
   ("llm_friendly_diff", dbOptStr r.llm_friendly_diff)]

/-- Modelled from the spec: reconstruction of a `ContentChange` from its
flat projection (absent from models.py); the model has no validation. -/
def ContentChange.from_dict (d : List (String × DBValue)) : Option ContentChange :=
  match getStr d "content_checksum", getStr d "old_checksum", getStr d "new_checksum", getEnum ChangeType.fromValue d "change_type", getTime d "detected_at", getOptStr d "file_name", getOptInt d "page_number", getOptStr d "old_content", getOptStr d "new_content", getOptRat d "similarity_score", getOptStr d "llm_friendly_diff" with
  | some content_checksum, some old_checksum, some new_checksum, some change_type, some detected_at, some file_name, some page_number, some old_content, some new_content, some similarity_score, some llm_friendly_diff =>
    some { content_checksum := content_checksum, old_checksum := old_checksum,
           new_checksum := new_checksum, change_type := change_type,
           detected_at := detected_at, file_name := file_name,
           page_number := page_number, old_content := old_content,
           new_content := new_content, similarity_score := similarity_score,
           llm_friendly_diff := llm_friendly_diff }
  | _, _, _, _, _, _, _, _, _, _, _ => none
@[simp] theorem ContentStatus_fromValue_value (e : ContentStatus) :
    ContentStatus.fromValue e.value = some e := by
  cases e <;> rfl

@[simp] theorem FAQStatus_fromValue_value (e : FAQStatus) :
    FAQStatus.fromValue e.value = some e := by
  cases e <;> rfl

@[simp] theorem SourceType_fromValue_value (e : SourceType) :
    SourceType.fromValue e.value = some e := by
  cases e <;> rfl

@[simp] theorem GenerationMethod_fromValue_value (e : GenerationMethod) :
    GenerationMethod.fromValue e.value = some e := by
  cases e <;> rfl

@[simp] theorem ChangeType_fromValue_value (e : ChangeType) :
    ChangeType.fromValue e.value = some e := by
  cases e <;> rfl

@[simp] theorem InvalidationReason_fromValue_value (e : InvalidationReason) :
    InvalidationReason.fromValue e.value = some e := by
  cases e <;> rfl

@[simp] theorem DiffType_fromValue_value (e : DiffType) :
    DiffType.fromValue e.value = some e := by
  cases e <;> rfl

@[simp] theorem DiffAlgorithm_fromValue_value (e : DiffAlgorithm) :
    DiffAlgorithm.fromValue e.value = some e := by
  cases e <;> rfl

@[simp] theorem ImpactLevel_fromValue_value (e : ImpactLevel) :
    ImpactLevel.fromValue e.value = some e := by
  cases e <;> rfl

@[simp] theorem AnalysisMethod_fromValue_value (e : AnalysisMethod) :
    AnalysisMethod.fromValue e.value = some e := by
  cases e <;> rfl

@[simp] theorem AuditAction_fromValue_value (e : AuditAction) :
    AuditAction.fromValue e.value = some e := by
  cases e <;> rfl

@[simp] theorem AnswerFormat_fromValue_value (e : AnswerFormat) :
    AnswerFormat.fromValue e.value = some e := by
  cases e <;> rfl

@[simp] theorem DBValue.asStr_vStr (s : String) : (DBValue.vStr s).asStr = some s := rfl

@[simp] theorem DBValue.asInt_vInt (n : Int) : (DBValue.vInt n).asInt = some n := rfl

@[simp] theorem DBValue.asRat_vRat (q : ℚ) : (DBValue.vRat q).asRat = some q := rfl

@[simp] theorem DBValue.asBool_vBool (b : Bool) : (DBValue.vBool b).asBool = some b := rfl

@[simp] theorem DBValue.asTime_vTime (t : Nat) : (DBValue.vTime t).asTime = some t := rfl

@[simp] theorem unOptStr_dbOptStr (o : Option String) : unOptStr (dbOptStr o) = some o := by
  cases o <;> rfl

@[simp] theorem unOptInt_dbOptInt (o : Option Int) : unOptInt (dbOptInt o) = some o := by
  cases o <;> rfl

@[simp] theorem unOptRat_dbOptRat (o : Option ℚ) : unOptRat (dbOptRat o) = some o := by
  cases o <;> rfl

@[simp] theorem unOptBool_dbOptBool (o : Option Bool) : unOptBool (dbOptBool o) = some o := by
  cases o <;> rfl

@[simp] theorem unOptTime_dbOptTime (o : Option Nat) : unOptTime (dbOptTime o) = some o := by
  cases o <;> rfl

theorem unOptEnum_dbOptEnum {α : Type} (val : α → String) (fromVal : String → Option α)
    (h : ∀ e, fromVal (val e) = some e) (o : Option α) :
    unOptEnum fromVal (dbOptEnum val o) = some o := by
  cases o <;> simp [dbOptEnum, unOptEnum, h]

@[simp] theorem unOptEnum_sourceType (o : Option SourceType) :
    unOptEnum SourceType.fromValue (dbOptEnum SourceType.value o) = some o :=
  unOptEnum_dbOptEnum _ _ SourceType_fromValue_value o

@[simp] theorem unOptEnum_generationMethod (o : Option GenerationMethod) :
    unOptEnum GenerationMethod.fromValue (dbOptEnum GenerationMethod.value o) = some o :=
  unOptEnum_dbOptEnum _ _ GenerationMethod_fromValue_value o

@[simp] theorem unOptEnum_changeType (o : Option ChangeType) :
    unOptEnum ChangeType.fromValue (dbOptEnum ChangeType.value o) = some o :=
  unOptEnum_dbOptEnum _ _ ChangeType_fromValue_value o

@[simp] theorem unOptEnum_invalidationReason (o : Option InvalidationReason) :
    unOptEnum InvalidationReason.fromValue (dbOptEnum InvalidationReason.value o) = some o :=
  unOptEnum_dbOptEnum _ _ InvalidationReason_fromValue_value o

@[simp] theorem unOptEnum_diffType (o : Option DiffType) :
    unOptEnum DiffType.fromValue (dbOptEnum DiffType.value o) = some o :=
  unOptEnum_dbOptEnum _ _ DiffType_fromValue_value o

@[simp] theorem unOptEnum_diffAlgorithm (o : Option DiffAlgorithm) :
    unOptEnum DiffAlgorithm.fromValue (dbOptEnum DiffAlgorithm.value o) = some o :=
  unOptEnum_dbOptEnum _ _ DiffAlgorithm_fromValue_value o

@[simp] theorem unOptEnum_impactLevel (o : Option ImpactLevel) :
    unOptEnum ImpactLevel.fromValue (dbOptEnum ImpactLevel.value o) = some o :=
  unOptEnum_dbOptEnum _ _ ImpactLevel_fromValue_value o

@[simp] theorem unOptEnum_analysisMethod (o : Option AnalysisMethod) :
    unOptEnum AnalysisMethod.fromValue (dbOptEnum AnalysisMethod.value o) = some o :=
  unOptEnum_dbOptEnum _ _ AnalysisMethod_fromValue_value o

@[simp] theorem except_ok_toOption {ε α : Type} (a : α) :
    (Except.ok (ε := ε) a).toOption = some a := rfl

theorem ContentChecksum_post_init_ok_iff (r : ContentChecksum) :
    ContentChecksum.post_init r = Except.ok r ↔ r.content_checksum.length = 64 := by
  unfold ContentChecksum.post_init
  split_ifs <;> simp_all

theorem FAQQuestionSource_post_init_ok_iff (r : FAQQuestionSource) :
    FAQQuestionSource.post_init r = Except.ok r ↔
      ∀ w, r.contribution_weight = some w → (0 ≤ w ∧ w ≤ 1) := by
  unfold FAQQuestionSource.post_init
  rcases hw : r.contribution_weight with _ | w
  · simp
  · by_cases hb : (0 : ℚ) ≤ w ∧ w ≤ 1 <;> simp_all

theorem FAQAnswerSource_post_init_ok_iff (r : FAQAnswerSource) :
    FAQAnswerSource.post_init r = Except.ok r ↔
      ∀ w, r.contribution_weight = some w → (0 ≤ w ∧ w ≤ 1) := by
  unfold FAQAnswerSource.post_init
  rcases hw : r.contribution_weight with _ | w
  · simp
  · by_cases hb : (0 : ℚ) ≤ w ∧ w ≤ 1 <;> simp_all

theorem FAQAnswer_post_init_ok_iff (r : FAQAnswer) :
    FAQAnswer.post_init r = Except.ok r ↔
      ∀ c, r.confidence_score = some c → (0 ≤ c ∧ c ≤ 1) := by
  unfold FAQAnswer.post_init
  rcases hc : r.confidence_score with _ | c
  · simp
  · by_cases hb : (0 : ℚ) ≤ c ∧ c ≤ 1 <;> simp_all

theorem ContentDiff_post_init_ok_iff (r : ContentDiff) :
    ContentDiff.post_init r = Except.ok r ↔
      ∀ p, r.change_percentage = some p → (0 ≤ p ∧ p ≤ 100) := by
  unfold ContentDiff.post_init
  rcases hp : r.change_percentage with _ | p
  · simp
  · by_cases hb : (0 : ℚ) ≤ p ∧ p ≤ 100 <;> simp_all

theorem FAQImpactAnalysis_post_init_ok_iff (r : FAQImpactAnalysis) :
    FAQImpactAnalysis.post_init r = Except.ok r ↔
      ((0 ≤ r.overall_impact_score ∧ r.overall_impact_score ≤ 1) ∧
       ∀ c, r.confidence = some c → (0 ≤ c ∧ c ≤ 1)) := by
  unfold FAQImpactAnalysis.post_init
  rcases hc : r.confidence with _ | c <;> split_ifs <;> simp_all

theorem ContentChangeLog_post_init_ok_iff (r : ContentChangeLog) :
    ContentChangeLog.post_init r = Except.ok r ↔
      (r.content_checksum.length = 64 ∧
       (∀ p, r.previous_checksum = some p → p ≠ "" → p.length = 64) ∧
       (∀ s, r.similarity_score = some s → (0 ≤ s ∧ s ≤ 1))) := by
  unfold ContentChangeLog.post_init ContentChangeLog.sim_check
  rcases hp : r.previous_checksum with _ | p <;> rcases hs : r.similarity_score with _ | s <;>
    simp only [hp, hs] <;> split_ifs <;> simp_all

theorem ContentChecksum_from_dict_to_dict (r : ContentChecksum)
    (h : ContentChecksum.post_init r = Except.ok r) :
    ContentChecksum.from_dict (ContentChecksum.to_dict r) = some r := by
  cases r
  simp [ContentChecksum.to_dict, ContentChecksum.from_dict, getStr, getEnum, getTime,
        getOptStr, getOptInt, List.lookup, h]

theorem FAQQuestion_from_dict_to_dict (r : FAQQuestion) :
    FAQQuestion.from_dict (FAQQuestion.to_dict r) = some r := by
  cases r
  simp [FAQQuestion.to_dict, FAQQuestion.from_dict, getOptInt, getStr, getEnum, getTime,
        getOptEnum, getOptStr, List.lookup]

theorem FAQQuestionSource_from_dict_to_dict (r : FAQQuestionSource)
    (h : FAQQuestionSource.post_init r = Except.ok r) :
    FAQQuestionSource.from_dict (FAQQuestionSource.to_dict r) = some r := by
  cases r
  simp [FAQQuestionSource.to_dict, FAQQuestionSource.from_dict, getInt, getStr, getBool,
        getTime, getOptInt, getOptRat, getOptTime, getOptEnum, List.lookup, h]

theorem FAQAnswer_from_dict_to_dict (r : FAQAnswer)
    (h : FAQAnswer.post_init r = Except.ok r) :
    FAQAnswer.from_dict (FAQAnswer.to_dict r) = some r := by
  cases r
  simp [FAQAnswer.to_dict, FAQAnswer.from_dict, getInt, getStr, getEnum, getTime,
        getOptInt, getOptRat, List.lookup, h]

theorem FAQAnswerSource_from_dict_to_dict (r : FAQAnswerSource)
    (h : FAQAnswerSource.post_init r = Except.ok r) :
    FAQAnswerSource.from_dict (FAQAnswerSource.to_dict r) = some r := by
  cases r
  simp [FAQAnswerSource.to_dict, FAQAnswerSource.from_dict, getInt, getStr, getBool,
        getTime, getOptInt, getOptRat, getOptStr, getOptTime, getOptEnum, List.lookup, h]

theorem ContentChangeLog_from_dict_to_dict (r : ContentChangeLog)
    (h : ContentChangeLog.post_init r = Except.ok r) :
    ContentChangeLog.from_dict (ContentChangeLog.to_dict r) = some r := by
  cases r
  simp [ContentChangeLog.to_dict, ContentChangeLog.from_dict, getStr, getBool, getTime,
        getInt, getOptInt, getOptStr, getOptEnum, getOptRat, getOptTime, List.lookup, h]

theorem ContentDiff_from_dict_to_dict (r : ContentDiff)
    (h : ContentDiff.post_init r = Except.ok r) :
    ContentDiff.from_dict (ContentDiff.to_dict r) = some r := by
  cases r
  simp [ContentDiff.to_dict, ContentDiff.from_dict, getInt, getStr, getTime, getOptInt,
        getOptEnum, getOptRat, getOptStr, getOptBool, List.lookup, h]

theorem FAQImpactAnalysis_from_dict_to_dict (r : FAQImpactAnalysis)
    (h : FAQImpactAnalysis.post_init r = Except.ok r) :
    FAQImpactAnalysis.from_dict (FAQImpactAnalysis.to_dict r) = some r := by
  cases r
  simp [FAQImpactAnalysis.to_dict, FAQImpactAnalysis.from_dict, getInt, getRat, getBool,
        getTime, getOptInt, getOptRat, getOptEnum, getOptStr, List.lookup, h]

theorem AuditLogEntry_from_dict_to_dict (r : AuditLogEntry) :
    AuditLogEntry.from_dict (AuditLogEntry.to_dict r) = some r := by
  cases r
  simp [AuditLogEntry.to_dict, AuditLogEntry.from_dict, getStr, getEnum, getTime,
        getOptInt, getOptStr, List.lookup]

theorem ContentChange_from_dict_to_dict (r : ContentChange) :
    ContentChange.from_dict (ContentChange.to_dict r) = some r := by
  cases r
  simp [ContentChange.to_dict, ContentChange.from_dict, getStr, getEnum, getTime,
        getOptStr, getOptInt, getOptRat, List.lookup]

/-- Claim C1 (counterexample): no decision threshold can make `is_affected`
agree with `overall_impact_score` on every constructible
`FAQImpactAnalysis` record: the records with score 1 and opposite
decisions are both constructible, so the biconditional fails for every
threshold. -/
theorem C1_counterexample :
    ¬ ∃ t : ℚ, ∀ r : FAQImpactAnalysis, FAQImpactAnalysis.post_init r = Except.ok r →
        (r.is_affected = true ↔ t ≤ r.overall_impact_score) := by
  rintro ⟨t, h⟩
  have hA := h { change_id := 1, question_id := 1, overall_impact_score := 1,
                 is_affected := true } rfl
  have hB := h { change_id := 1, question_id := 2, overall_impact_score := 1,
                 is_affected := false } rfl
  exact absurd (hB.mpr (hA.mp rfl)) (by decide)

/-- Claim C1 (amended): `FAQImpactAnalysis.__post_init__` checks only the
two score ranges — a record is constructible iff `overall_impact_score`
lies in [0,1] and any present `confidence` lies in [0,1]; `is_affected`
and `impact_level` are stored as given and never compared with the score
or any threshold. -/
theorem C1_construction_checks_only_score_ranges (r : FAQImpactAnalysis) :
    FAQImpactAnalysis.post_init r = Except.ok r ↔
      ((0 ≤ r.overall_impact_score ∧ r.overall_impact_score ≤ 1) ∧
       ∀ c, r.confidence = some c → (0 ≤ c ∧ c ≤ 1)) :=
  FAQImpactAnalysis_post_init_ok_iff r

/-- Witness for C1: a record with score 1 yet `is_affected = false` is
accepted by construction. -/
theorem C1_witness :
    FAQImpactAnalysis.post_init
        { change_id := 1, question_id := 1, overall_impact_score := 1,
          is_affected := false } =
      Except.ok { change_id := 1, question_id := 1, overall_impact_score := 1,
                  is_affected := false } :=
  (C1_construction_checks_only_score_ranges _).mpr ⟨by decide, by simp⟩

/-- Claim C2: constructing a `ContentChecksum` succeeds exactly when the
digest has length 64; any other length yields a validation error naming
the `content_checksum` field and no record. -/
theorem C2_checksum_length_validation :
    (∀ r : ContentChecksum,
        ContentChecksum.post_init r = Except.ok r ↔ r.content_checksum.length = 64) ∧
    (∀ r : ContentChecksum, r.content_checksum.length ≠ 64 →
        ContentChecksum.post_init r =
          Except.error ("content_checksum must be 64 chars, got " ++
            toString r.content_checksum.length)) := by
  constructor
  · exact ContentChecksum_post_init_ok_iff
  · intro r h
    unfold ContentChecksum.post_init
    rw [if_pos h]

/-- Witness for C2: a 64-character digest is accepted; a 63-character
digest is rejected with the field-naming error. -/
theorem C2_witness :
    (ContentChecksum.post_init
        { content_checksum := "0123456789abcdef0123456789abcdef0123456789abcdef0123456789abcdef" } =
      Except.ok
        { content_checksum := "0123456789abcdef0123456789abcdef0123456789abcdef0123456789abcdef" }) ∧
    (ContentChecksum.post_init
        { content_checksum := "0123456789abcdef0123456789abcdef0123456789abcdef0123456789abcde" } =
      Except.error ("content_checksum must be 64 chars, got " ++
        toString ("0123456789abcdef0123456789abcdef0123456789abcdef0123456789abcde" : String).length)) :=
  ⟨(C2_checksum_length_validation.1 _).mpr (by decide),
   C2_checksum_length_validation.2 _ (by decide)⟩

/-- Claim C3 (counterexample): score-to-level monotonicity fails on
constructible records: a record with score 1 and level NONE and a record
with score 0 and level HIGH are both accepted. -/
theorem C3_counterexample :
    ¬ ∀ (A B : FAQImpactAnalysis) (la lb : ImpactLevel),
        FAQImpactAnalysis.post_init A = Except.ok A →
        FAQImpactAnalysis.post_init B = Except.ok B →
        A.impact_level = some la → B.impact_level = some lb →
        B.overall_impact_score < A.overall_impact_score →
        ImpactLevel.rank lb ≤ ImpactLevel.rank la := by
  intro h
  have := h
    { change_id := 1, question_id := 1, overall_impact_score := 1, is_affected := true,
      impact_level := some ImpactLevel.NONE }
    { change_id := 1, question_id := 2, overall_impact_score := 0, is_affected := false,
      impact_level := some ImpactLevel.HIGH }
    ImpactLevel.NONE ImpactLevel.HIGH rfl rfl rfl rfl (by decide)
  exact absurd this (by decide)

/-- Claim C3 (amended): the model layer leaves `impact_level` completely
unconstrained: replacing the level of any constructible record by any
level (or by none) keeps the record constructible, so no score-to-level
monotonic staircase is enforced at construction. -/
theorem C3_impact_level_unconstrained (r : FAQImpactAnalysis)
    (lvl : Option ImpactLevel) (h : FAQImpactAnalysis.post_init r = Except.ok r) :
    FAQImpactAnalysis.post_init { r with impact_level := lvl } =
      Except.ok { r with impact_level := lvl } := by
  cases r
  rw [FAQImpactAnalysis_post_init_ok_iff] at h ⊢
  simpa using h

/-- Witness for C3: attaching level NONE to a constructible score-1 record
keeps it constructible. -/
theorem C3_witness :
    FAQImpactAnalysis.post_init
        { change_id := 1, question_id := 3, overall_impact_score := 1, is_affected := true,
          impact_level := some ImpactLevel.NONE } =
      Except.ok { change_id := 1, question_id := 3, overall_impact_score := 1,
                  is_affected := true, impact_level := some ImpactLevel.NONE } :=
  C3_impact_level_unconstrained
    { change_id := 1, question_id := 3, overall_impact_score := 1, is_affected := true }
    (some ImpactLevel.NONE) rfl

/-- Claim C4 (counterexample): a provenance link with `valid_until` set,
no `invalidation_reason`, and `is_valid` still true is constructible:
`__post_init__` checks only the contribution weight. -/
theorem C4_counterexample :
    ¬ ∀ r : FAQQuestionSource, FAQQuestionSource.post_init r = Except.ok r →
        ((r.is_valid = true ↔ r.valid_until = none) ∧
         (r.valid_until ≠ none → r.invalidation_reason ≠ none)) := by
  intro h
  have h1 := (h { question_id := 1, content_checksum := "c", valid_until := some 5 } rfl).1
  exact absurd (h1.mp rfl) (by decide)

/-- Claim C4 (amended): construction of both provenance link kinds
validates only `contribution_weight`; the `is_valid`, `valid_until` and
`invalidation_reason` fields are unconstrained, so any combination of
them — a closed window without a reason, or an open window flagged
invalid — is constructible. -/
theorem C4_validity_fields_unconstrained :
    (∀ (r : FAQQuestionSource) (b : Bool) (vu : Option Nat) (ir : Option InvalidationReason),
        FAQQuestionSource.post_init r = Except.ok r →
        FAQQuestionSource.post_init
            { r with is_valid := b, valid_until := vu, invalidation_reason := ir } =
          Except.ok { r with is_valid := b, valid_until := vu, invalidation_reason := ir }) ∧
    (∀ (r : FAQAnswerSource) (b : Bool) (vu : Option Nat) (ir : Option InvalidationReason),
        FAQAnswerSource.post_init r = Except.ok r →
        FAQAnswerSource.post_init
            { r with is_valid := b, valid_until := vu, invalidation_reason := ir } =
          Except.ok { r with is_valid := b, valid_until := vu, invalidation_reason := ir }) := by
  constructor
  · intro r b vu ir h
    cases r
    rw [FAQQuestionSource_post_init_ok_iff] at h ⊢
    simpa using h
  · intro r b vu ir h
    cases r
    rw [FAQAnswerSource_post_init_ok_iff] at h ⊢
    simpa using h

/-- Witness for C4: a question-source link closed at time 7 with no reason
and still flagged valid is accepted. -/
theorem C4_witness :
    FAQQuestionSource.post_init
        { question_id := 2, content_checksum := "d", is_valid := true,
          valid_until := some 7, invalidation_reason := none } =
      Except.ok { question_id := 2, content_checksum := "d", is_valid := true,
                  valid_until := some 7, invalidation_reason := none } :=
  C4_validity_fields_unconstrained.1 { question_id := 2, content_checksum := "d" }
    true (some 7) none rfl

/-- Claim C5 (counterexample): a constructible `FAQImpactAnalysis` record
may carry a present sub-score far outside [0,1]: `lexical_overlap_score =
5` passes construction because `__post_init__` never examines the four
sub-scores. -/
theorem C5_counterexample :
    ¬ ∀ (r : FAQImpactAnalysis) (s : ℚ), FAQImpactAnalysis.post_init r = Except.ok r →
        r.lexical_overlap_score = some s → (0 ≤ s ∧ s ≤ 1) := by
  intro h
  have := h { change_id := 1, question_id := 1, overall_impact_score := 0,
              is_affected := false, lexical_overlap_score := some 5 } 5 rfl rfl
  exact absurd this (by decide)

/-- Claim C5 (amended): the four optional sub-scores are not validated at
construction: replacing them by arbitrary values, inside or outside
[0,1], keeps a constructible record constructible; only
`overall_impact_score` and `confidence` are range-checked. -/
theorem C5_subscores_unconstrained (r : FAQImpactAnalysis) (a b c d : Option ℚ)
    (h : FAQImpactAnalysis.post_init r = Except.ok r) :
    FAQImpactAnalysis.post_init
        { r with lexical_overlap_score := a, semantic_similarity_score := b,
                 keyword_match_score := c, phrase_match_score := d } =
      Except.ok
        { r with lexical_overlap_score := a, semantic_similarity_score := b,
                 keyword_match_score := c, phrase_match_score := d } := by
  cases r
  rw [FAQImpactAnalysis_post_init_ok_iff] at h ⊢
  simpa using h

/-- Witness for C5: all four sub-scores set far outside [0,1] on a record
that is still accepted. -/
theorem C5_witness :
    FAQImpactAnalysis.post_init
        { change_id := 1, question_id := 4, overall_impact_score := 0, is_affected := false,
          lexical_overlap_score := some 5, semantic_similarity_score := some (-3),
          keyword_match_score := some 2, phrase_match_score := some 100 } =
      Except.ok
        { change_id := 1, question_id := 4, overall_impact_score := 0, is_affected := false,
          lexical_overlap_score := some 5, semantic_similarity_score := some (-3),
          keyword_match_score := some 2, phrase_match_score := some 100 } :=
  C5_subscores_unconstrained
    { change_id := 1, question_id := 4, overall_impact_score := 0, is_affected := false }
    (some 5) (some (-3)) (some 2) (some 100) rfl

/-- Claim C6: for every entity kind, converting a record to its flat
key-value projection (`to_dict`, enums rendered as string tags) and
reconstructing through the spec-modelled `from_dict` yields the original
record; for kinds with construction-time validation this holds on every
constructible record. -/
theorem C6_round_trip :
    (∀ r : ContentChecksum, ContentChecksum.post_init r = Except.ok r →
        ContentChecksum.from_dict (ContentChecksum.to_dict r) = some r) ∧
    (∀ r : FAQQuestion, FAQQuestion.from_dict (FAQQuestion.to_dict r) = some r) ∧
    (∀ r : FAQQuestionSource, FAQQuestionSource.post_init r = Except.ok r →
        FAQQuestionSource.from_dict (FAQQuestionSource.to_dict r) = some r) ∧
    (∀ r : FAQAnswer, FAQAnswer.post_init r = Except.ok r →
        FAQAnswer.from_dict (FAQAnswer.to_dict r) = some r) ∧
    (∀ r : FAQAnswerSource, FAQAnswerSource.post_init r = Except.ok r →
        FAQAnswerSource.from_dict (FAQAnswerSource.to_dict r) = some r) ∧
    (∀ r : ContentChangeLog, ContentChangeLog.post_init r = Except.ok r →
        ContentChangeLog.from_dict (ContentChangeLog.to_dict r) = some r) ∧
    (∀ r : ContentDiff, ContentDiff.post_init r = Except.ok r →
        ContentDiff.from_dict (ContentDiff.to_dict r) = some r) ∧
    (∀ r : FAQImpactAnalysis, FAQImpactAnalysis.post_init r = Except.ok r →
        FAQImpactAnalysis.from_dict (FAQImpactAnalysis.to_dict r) = some r) ∧
    (∀ r : AuditLogEntry, AuditLogEntry.from_dict (AuditLogEntry.to_dict r) = some r) ∧
    (∀ r : ContentChange, ContentChange.from_dict (ContentChange.to_dict r) = some r) :=
  ⟨ContentChecksum_from_dict_to_dict, FAQQuestion_from_dict_to_dict,
   FAQQuestionSource_from_dict_to_dict, FAQAnswer_from_dict_to_dict,
   FAQAnswerSource_from_dict_to_dict, ContentChangeLog_from_dict_to_dict,
   ContentDiff_from_dict_to_dict, FAQImpactAnalysis_from_dict_to_dict,
   AuditLogEntry_from_dict_to_dict, ContentChange_from_dict_to_dict⟩

/-- Witness for C6: one concrete round trip per entity kind. -/
theorem C6_witness :
    (ContentChecksum.from_dict (ContentChecksum.to_dict
        { content_checksum := "0123456789abcdef0123456789abcdef0123456789abcdef0123456789abcdef" }) =
      some { content_checksum := "0123456789abcdef0123456789abcdef0123456789abcdef0123456789abcdef" }) ∧
    (FAQQuestion.from_dict (FAQQuestion.to_dict { question_text := "q" }) =
      some { question_text := "q" }) ∧
    (FAQQuestionSource.from_dict (FAQQuestionSource.to_dict
        { question_id := 1, content_checksum := "c" }) =
      some { question_id := 1, content_checksum := "c" }) ∧
    (FAQAnswer.from_dict (FAQAnswer.to_dict { question_id := 1, answer_text := "a" }) =
      some { question_id := 1, answer_text := "a" }) ∧
    (FAQAnswerSource.from_dict (FAQAnswerSource.to_dict
        { answer_id := 1, content_checksum := "c" }) =
      some { answer_id := 1, content_checksum := "c" }) ∧
    (ContentChangeLog.from_dict (ContentChangeLog.to_dict
        { content_checksum := "0123456789abcdef0123456789abcdef0123456789abcdef0123456789abcdef",
          file_name := "f", requires_faq_regeneration := false, detection_run_id := "r" }) =
      some { content_checksum := "0123456789abcdef0123456789abcdef0123456789abcdef0123456789abcdef",
             file_name := "f", requires_faq_regeneration := false, detection_run_id := "r" }) ∧
    (ContentDiff.from_dict (ContentDiff.to_dict
        { change_id := 1, old_checksum := "o", new_checksum := "n" }) =
      some { change_id := 1, old_checksum := "o", new_checksum := "n" }) ∧
    (FAQImpactAnalysis.from_dict (FAQImpactAnalysis.to_dict
        { change_id := 1, question_id := 1, overall_impact_score := 1, is_affected := true }) =
      some { change_id := 1, question_id := 1, overall_impact_score := 1, is_affected := true }) ∧
    (AuditLogEntry.from_dict (AuditLogEntry.to_dict
        { table_name := "t", action := AuditAction.INSERT }) =
      some { table_name := "t", action := AuditAction.INSERT }) ∧
    (ContentChange.from_dict (ContentChange.to_dict
        { content_checksum := "c", old_checksum := "o", new_checksum := "n",
          change_type := ChangeType.NEW_CONTENT }) =
      some { content_checksum := "c", old_checksum := "o", new_checksum := "n",
             change_type := ChangeType.NEW_CONTENT }) :=
  ⟨C6_round_trip.1 _ rfl, C6_round_trip.2.1 _, C6_round_trip.2.2.1 _ rfl,
   C6_round_trip.2.2.2.1 _ rfl, C6_round_trip.2.2.2.2.1 _ rfl,
   C6_round_trip.2.2.2.2.2.1 _ rfl, C6_round_trip.2.2.2.2.2.2.1 _ rfl,
   C6_round_trip.2.2.2.2.2.2.2.1 _ rfl, C6_round_trip.2.2.2.2.2.2.2.2.1 _,
   C6_round_trip.2.2.2.2.2.2.2.2.2 _⟩

/-- Claim C7: constructing either provenance link kind with
`contribution_weight` present succeeds exactly when the weight lies in
[0,1], and otherwise fails with the range error at construction. -/
theorem C7_contribution_weight_validation :
    (∀ (r : FAQQuestionSource) (w : ℚ), r.contribution_weight = some w →
        ((FAQQuestionSource.post_init r = Except.ok r ↔ (0 ≤ w ∧ w ≤ 1)) ∧
         (¬ (0 ≤ w ∧ w ≤ 1) → FAQQuestionSource.post_init r =
            Except.error ("contribution_weight must be 0.0-1.0, got " ++ toString w)))) ∧
    (∀ (r : FAQAnswerSource) (w : ℚ), r.contribution_weight = some w →
        ((FAQAnswerSource.post_init r = Except.ok r ↔ (0 ≤ w ∧ w ≤ 1)) ∧
         (¬ (0 ≤ w ∧ w ≤ 1) → FAQAnswerSource.post_init r =
            Except.error ("contribution_weight must be 0.0-1.0, got " ++ toString w)))) := by
  constructor
  · intro r w hw
    refine ⟨?_, ?_⟩
    · rw [FAQQuestionSource_post_init_ok_iff]
      constructor
      · intro h
        exact h w hw
      · intro h x hx
        rw [hw] at hx
        cases hx
        exact h
    · intro hb
      unfold FAQQuestionSource.post_init
      rw [hw]
      simp [hb]
  · intro r w hw
    refine ⟨?_, ?_⟩
    · rw [FAQAnswerSource_post_init_ok_iff]
      constructor
      · intro h
        exact h w hw
      · intro h x hx
        rw [hw] at hx
        cases hx
        exact h
    · intro hb
      unfold FAQAnswerSource.post_init
      rw [hw]
      simp [hb]

/-- Witness for C7: boundary weights 0 and 1 are accepted on a question
source, weight -1 is rejected; weight 1 is accepted on an answer source,
weight 2 is rejected. -/
theorem C7_witness :
    (FAQQuestionSource.post_init
        { question_id := 1, content_checksum := "c", contribution_weight := some 0 } =
      Except.ok { question_id := 1, content_checksum := "c", contribution_weight := some 0 }) ∧
    (FAQQuestionSource.post_init
        { question_id := 1, content_checksum := "c", contribution_weight := some 1 } =
      Except.ok { question_id := 1, content_checksum := "c", contribution_weight := some 1 }) ∧
    (FAQQuestionSource.post_init
        { question_id := 1, content_checksum := "c", contribution_weight := some (-1) } =
      Except.error ("contribution_weight must be 0.0-1.0, got " ++ toString (-1 : ℚ))) ∧
    (FAQAnswerSource.post_init
        { answer_id := 1, content_checksum := "c", contribution_weight := some 1 } =
      Except.ok { answer_id := 1, content_checksum := "c", contribution_weight := some 1 }) ∧
    (FAQAnswerSource.post_init
        { answer_id := 1, content_checksum := "c", contribution_weight := some 2 } =
      Except.error ("contribution_weight must be 0.0-1.0, got " ++ toString (2 : ℚ))) :=
  ⟨((C7_contribution_weight_validation.1 _ 0 rfl).1).mpr (by decide),
   ((C7_contribution_weight_validation.1 _ 1 rfl).1).mpr (by decide),
   (C7_contribution_weight_validation.1 _ (-1) rfl).2 (by decide),
   ((C7_contribution_weight_validation.2 _ 1 rfl).1).mpr (by decide),
   (C7_contribution_weight_validation.2 _ 2 rfl).2 (by decide)⟩

/-- Claim C8 (counterexample): a `ContentChangeLog` whose
`previous_checksum` is present but equal to the empty string (length 0,
not 64) is accepted: the truthiness guard `if self.previous_checksum and
...` treats the empty string as absent. -/
theorem C8_counterexample :
    ¬ ∀ (r : ContentChangeLog) (p : String), ContentChangeLog.post_init r = Except.ok r →
        r.previous_checksum = some p → p.length = 64 := by
  intro h
  have := h
    { content_checksum := "0123456789abcdef0123456789abcdef0123456789abcdef0123456789abcdef",
      file_name := "f", requires_faq_regeneration := false, detection_run_id := "run",
      previous_checksum := some "" } "" rfl rfl
  exact absurd this (by decide)

/-- Claim C8 (amended): `ContentChangeLog` construction fails when
`content_checksum` is not 64 characters, when `previous_checksum` is
present, non-empty and not 64 characters (the empty string escapes the
truthiness-guarded check), or when a present `similarity_score` is
outside [0,1]; it succeeds when none of these hold. -/
theorem C8_change_log_validation (r : ContentChangeLog) :
    ContentChangeLog.post_init r = Except.ok r ↔
      (r.content_checksum.length = 64 ∧
       (∀ p, r.previous_checksum = some p → p ≠ "" → p.length = 64) ∧
       (∀ s, r.similarity_score = some s → (0 ≤ s ∧ s ≤ 1))) :=
  ContentChangeLog_post_init_ok_iff r

/-- Witness for C8: a change log with both digests of length 64 and
similarity score 1 is accepted. -/
theorem C8_witness :
    ContentChangeLog.post_init
        { content_checksum := "0123456789abcdef0123456789abcdef0123456789abcdef0123456789abcdef",
          file_name := "f", requires_faq_regeneration := true, detection_run_id := "r1",
          previous_checksum :=
            some "fedcba9876543210fedcba9876543210fedcba9876543210fedcba9876543210",
          similarity_score := some 1 } =
      Except.ok
        { content_checksum := "0123456789abcdef0123456789abcdef0123456789abcdef0123456789abcdef",
          file_name := "f", requires_faq_regeneration := true, detection_run_id := "r1",
          previous_checksum :=
            some "fedcba9876543210fedcba9876543210fedcba9876543210fedcba9876543210",
          similarity_score := some 1 } :=
  (C8_change_log_validation _).mpr
    ⟨by decide,
     by
       intro p hp
       cases hp
       intro
       decide,
     by
       intro s hs
       cases hs
       decide⟩

/-- Claim C9 (counterexample): two constructible `ContentChecksum` records
with the same digest but different `file_name` metadata are not equal:
dataclass equality compares every field, not the digest alone. -/
theorem C9_counterexample :
    ¬ ∀ r1 r2 : ContentChecksum, ContentChecksum.post_init r1 = Except.ok r1 →
        ContentChecksum.post_init r2 = Except.ok r2 →
        r1.content_checksum = r2.content_checksum → r1 = r2 := by
  intro h
  have := h
    { content_checksum := "0123456789abcdef0123456789abcdef0123456789abcdef0123456789abcdef",
      file_name := some "a.pdf" }
    { content_checksum := "0123456789abcdef0123456789abcdef0123456789abcdef0123456789abcdef",
      file_name := some "b.pdf" }
    rfl rfl rfl
  have hf := congrArg ContentChecksum.file_name this
  simp at hf

/-- Claim C9 (amended): equality of `ContentChecksum` records is the
dataclass field-by-field equality: records are equal iff every field —
location and file metadata included — agrees; equality of the digest is
necessary but not sufficient. -/
theorem C9_equality_is_fieldwise (r1 r2 : ContentChecksum) :
    r1 = r2 ↔
      (r1.content_checksum = r2.content_checksum ∧ r1.status = r2.status ∧
       r1.created_at = r2.created_at ∧ r1.file_type = r2.file_type ∧
       r1.content_format = r2.content_format ∧ r1.title = r2.title ∧
       r1.word_count = r2.word_count ∧ r1.char_count = r2.char_count ∧
       r1.domain = r2.domain ∧ r1.service = r2.service ∧
       r1.file_name = r2.file_name ∧ r1.page_number = r2.page_number ∧
       r1.section_name = r2.section_name ∧ r1.url = r2.url ∧
       r1.breadcrumb = r2.breadcrumb ∧ r1.source_file_path = r2.source_file_path ∧
       r1.file_version = r2.file_version ∧ r1.markdown_file_path = r2.markdown_file_path ∧
       r1.content_text = r2.content_text) := by
  cases r1
  cases r2
  simp [ContentChecksum.mk.injEq]

/-- Witness for C9: field-by-field agreement applied to a concrete record
yields reflexive equality. -/
theorem C9_witness :
    ({ content_checksum := "c", file_name := some "a.pdf" } : ContentChecksum) =
      { content_checksum := "c", file_name := some "a.pdf" } :=
  (C9_equality_is_fieldwise _ _).mpr (by simp)

/-- Claim C10: `FAQAnswer` construction with `confidence_score` present
succeeds exactly when the score lies in [0,1], fails with the range error
for any value outside it, and performs no check when the score is
absent. -/
theorem C10_confidence_score_validation :
    (∀ (r : FAQAnswer) (c : ℚ), r.confidence_score = some c →
        (FAQAnswer.post_init r = Except.ok r ↔ (0 ≤ c ∧ c ≤ 1))) ∧
    (∀ (r : FAQAnswer) (c : ℚ), r.confidence_score = some c → ¬ (0 ≤ c ∧ c ≤ 1) →
        FAQAnswer.post_init r =
          Except.error ("confidence_score must be 0.0-1.0, got " ++ toString c)) ∧
    (∀ r : FAQAnswer, r.confidence_score = none → FAQAnswer.post_init r = Except.ok r) := by
  refine ⟨?_, ?_, ?_⟩
  · intro r c hc
    rw [FAQAnswer_post_init_ok_iff]
    constructor
    · intro h
      exact h c hc
    · intro h x hx
      rw [hc] at hx
      cases hx
      exact h
  · intro r c hc hb
    unfold FAQAnswer.post_init
    rw [hc]
    simp [hb]
  · intro r h
    unfold FAQAnswer.post_init
    rw [h]

/-- Witness for C10: confidence 1 accepted, confidence 2 rejected with the
range error, absent confidence accepted unchecked. -/
theorem C10_witness :
    (FAQAnswer.post_init
        { question_id := 1, answer_text := "a", confidence_score := some 1 } =
      Except.ok { question_id := 1, answer_text := "a", confidence_score := some 1 }) ∧
    (FAQAnswer.post_init
        { question_id := 1, answer_text := "a", confidence_score := some 2 } =
      Except.error ("confidence_score must be 0.0-1.0, got " ++ toString (2 : ℚ))) ∧
    (FAQAnswer.post_init { question_id := 2, answer_text := "b" } =
      Except.ok { question_id := 2, answer_text := "b" }) :=
  ⟨(C10_confidence_score_validation.1 _ 1 rfl).mpr (by decide),
   C10_confidence_score_validation.2.1 _ 2 rfl (by decide),
   C10_confidence_score_validation.2.2 _ rfl⟩
